import Mathlib

/-
Verification of the session-management demo server.

The route handlers are embedded from src/backend/src/server.ts (the
Redis-backed server) and, for the equivalence claim, from the in-memory
variant.  The express-session middleware itself (cookie signing, store
lookup with TTL, per-request session resolution) is not part of the
repository's own sources; those pieces are modelled from the spec
(sections 4.1-4.3), as marked on each definition.

Conventions of the shallow embedding:
- JavaScript `undefined` for an optional session field is `Option.none`;
  JS truthiness of `req.session.isAuthenticated` is `truthy` below.
- Time is a `Nat` (milliseconds); the store keeps an absolute expiry per
  entry and `storeLoad` enforces it, modelling the backend's TTL.
- Response bodies are JSON-like trees (`JVal`), built literally from the
  object literals in the handlers.  `JVal.undefinedVal` stands for a JS
  `undefined` field value (which JSON serialisation would drop).
- A handler's effects are its HTTP response, the resulting store, and the
  cookie instruction (`keep` / `setCookie` / `clear`).
-/

namespace SessionDemo

/-- JSON-like response body values, mirroring the object literals passed to
`res.json` in the handlers. `undefinedVal` models a JS `undefined` field value. -/
inductive JVal where
  | s (v : String)
  | b (v : Bool)
  | null
  | undefinedVal
  | obj (fields : List (String × JVal))

/-- A user record of the mock user database (server.ts lines 145-149). -/
structure User where
  id : String
  username : String
  password : String
deriving DecidableEq

/-- The fixed mock user database (server.ts lines 145-149). -/
def users : List User :=
  [⟨"1", "juan", "123456"⟩, ⟨"2", "maria", "password"⟩, ⟨"3", "admin", "admin123"⟩]

/-- The custom session fields declared on express-session's SessionData
(server.ts lines 129-135); each is optional, `none` = JS `undefined`. -/
structure SessionData where
  userId : Option String
  username : Option String
  isAuthenticated : Option Bool
deriving DecidableEq

/-- A brand-new session object, before any handler touched it. -/
def emptySession : SessionData := ⟨none, none, none⟩

/-- JS truthiness of an optional boolean session field
(`if (req.session.isAuthenticated)`): `undefined` and `false` are falsy. -/
def truthy (b : Option Bool) : Bool := b.getD false

/-- One record of the session store: key, data, absolute expiry.
Modelled from the spec: the TTL-capable key-value backend of the Session
Store Adapter (spec section 4.2); Redis itself is not in the sources. -/
structure StoreEntry where
  sid : String
  data : SessionData
  expiresAt : Nat
deriving DecidableEq

/-- The session store state: a finite map from session id to entry. -/
abbrev Store := List StoreEntry

/-- Modelled from the spec: `load(sessionId) -> Option<data>` of the Store
Adapter (spec section 4.2) — present and unexpired, absence not an error. -/
def storeLoad (st : Store) (now : Nat) (sid : String) : Option SessionData :=
  match st.find? (fun e => e.sid == sid) with
  | some e => if now < e.expiresAt then some e.data else none
  | none => none

/-- Modelled from the spec: `create`/`save` of the Store Adapter (spec
section 4.2) — write-through under the id, overwriting any existing record. -/
def storeSet (st : Store) (sid : String) (d : SessionData) (expiresAt : Nat) : Store :=
  ⟨sid, d, expiresAt⟩ :: st.filter (fun e => e.sid != sid)

/-- Modelled from the spec: `destroy(sessionId) -> void` of the Store
Adapter (spec section 4.2) — idempotent delete, absence of the key is not
an error (the function is total and never fails on a missing key). -/
def storeDestroy (st : Store) (sid : String) : Store :=
  st.filter (fun e => e.sid != sid)

/-- The cookie-signing secret configured on the session middleware
(server.ts line 113, default branch). -/
def sessionSecret : String := "mi-super-secreto-para-firmar-cookies"

/-- Modelled from the spec: the keyed MAC of the Session Token Codec (spec
section 4.1); the real HMAC lives in the cookie-signature library, not in
the sources, so a concrete executable keyed hash stands in for it. -/
def hmac (secret msg : String) : String :=
  toString ((secret ++ msg).data.foldl (fun a c => (a * 131 + c.toNat) % 1000003) 7)

/-- A parsed session cookie value: the embedded session id and the
signature portion (wire format `s:<sid>.<sig>`). -/
structure Cookie where
  sid : String
  sig : String
deriving DecidableEq

/-- Modelled from the spec: `issue` of the Token Codec (spec section 4.1) —
the signed encoding of a session id under the server secret. -/
def issueCookie (sid : String) : Cookie := ⟨sid, hmac sessionSecret sid⟩

/-- Modelled from the spec: `verify(cookieValue) -> Result<sessionId,
InvalidToken>` of the Token Codec (spec section 4.1) — recomputes the
signature over the embedded id; any mismatch yields `none`. -/
def verifyCookie (c : Cookie) : Option String :=
  if c.sig == hmac sessionSecret c.sid then some c.sid else none

/-- The request-scoped resolved session context (spec section 3):
absent/invalid collapse to `Absent`, a live store hit is `Valid`. -/
inductive SessionContext where
  | Absent
  | Valid (sid : String) (data : SessionData)
deriving DecidableEq

/-- Modelled from the spec: the Lifecycle Manager's `resolve` (spec section
4.3, states 1-4): no cookie, failed verification, and a store miss (expired
or destroyed) all resolve to `Absent`; a live store hit is `Valid`. -/
def resolve (st : Store) (now : Nat) (cookie : Option Cookie) : SessionContext :=
  match cookie with
  | none => .Absent
  | some c =>
    match verifyCookie c with
    | none => .Absent
    | some sid =>
      match storeLoad st now sid with
      | none => .Absent
      | some d => .Valid sid d

/-- Modelled from the spec: what express-session hands the handler as
`(req.sessionID, req.session)` — the loaded session when resolution
succeeded, otherwise a brand-new empty session under a fresh id
(`saveUninitialized:false`: it is not yet persisted). -/
def reqSession (ctx : SessionContext) (freshId : String) : String × SessionData :=
  match ctx with
  | .Absent => (freshId, emptySession)
  | .Valid sid d => (sid, d)

/-- An HTTP response: status code and JSON body. -/
structure Response where
  status : Nat
  body : JVal

/-- The cookie instruction a handler leaves for the transport layer. -/
inductive CookieAction where
  | keep
  | setCookie (c : Cookie)
  | clear
deriving DecidableEq

/-- A mutating handler's full effect: response, new store, cookie action. -/
structure HandlerResult where
  response : Response
  store : Store
  cookie : CookieAction

/-- The session cookie lifetime configured on the middleware
(server.ts line 119): 24 hours in milliseconds. -/
def sessionTTL : Nat := 24 * 60 * 60 * 1000

/-- JS `req.session.username || null` (server.ts line 351): `undefined`
and the empty string are falsy, so both map to JSON `null`. -/
def jsOrNull (v : Option String) : JVal :=
  match v with
  | some s => if s == "" then .null else .s s
  | none => .null

/-- JS string interpolation of a possibly-undefined field
(template literal in server.ts line 321). -/
def interpStr (v : Option String) : String :=
  match v with
  | some s => s
  | none => "undefined"

/-- JSON value of a possibly-undefined string session field. -/
def optStr (v : Option String) : JVal :=
  match v with
  | some s => .s s
  | none => .undefinedVal

/-- JSON value of a possibly-undefined boolean session field. -/
def optBool (v : Option Bool) : JVal :=
  match v with
  | some b => .b b
  | none => .undefinedVal

/-- The `401 {success:false, message}` body of a failed login
(server.ts lines 258-261). -/
def loginFailBody : JVal :=
  .obj [("success", .b false), ("message", .s "Usuario o contraseña incorrectos")]

/-- The `200` body of a successful login (server.ts lines 251-255). -/
def loginOkBody (u : User) : JVal :=
  .obj [("success", .b true), ("message", .s "Login exitoso"),
        ("user", .obj [("id", .s u.id), ("username", .s u.username)])]

/-- The POST /api/login handler (server.ts lines 213-263), given the
middleware-resolved session.  On success it assigns the three session
fields from the found user record; express-session then persists the
(modified) session under its id with the configured TTL and sets the
signed cookie.  On failure it answers 401 and touches nothing. -/
def loginHandler (st : Store) (now : Nat) (ctx : SessionContext) (freshId : String)
    (username password : String) : HandlerResult :=
  match users.find? (fun u => u.username == username && u.password == password) with
  | some u =>
    let sid := (reqSession ctx freshId).1
    let d : SessionData := ⟨some u.id, some u.username, some true⟩
    { response := ⟨200, loginOkBody u⟩,
      store := storeSet st sid d (now + sessionTTL),
      cookie := .setCookie (issueCookie sid) }
  | none =>
    { response := ⟨401, loginFailBody⟩, store := st, cookie := .keep }

/-- The requireAuth middleware's predicate (server.ts line 175):
`if (req.session.isAuthenticated)`. -/
def requireAuthAllows (d : SessionData) : Bool := truthy d.isAuthenticated

/-- The `401 {error, authenticated:false}` deny response of requireAuth
(server.ts lines 180-183), a constant independent of the deny cause. -/
def denyResponse : Response :=
  ⟨401, .obj [("error", .s "No autorizado. Debes hacer login primero."),
              ("authenticated", .b false)]⟩

/-- Whether the authentication gate admits the request, after middleware
resolution (requireAuth over the resolved `req.session`). -/
def gateAllows (st : Store) (now : Nat) (cookie : Option Cookie) (freshId : String) : Bool :=
  requireAuthAllows (reqSession (resolve st now cookie) freshId).2

/-- GET /api/profile (server.ts lines 281-300), behind requireAuth.
`nowIso` is the request-time `new Date().toISOString()`. -/
def profileRoute (st : Store) (now : Nat) (cookie : Option Cookie) (freshId : String)
    (nowIso : String) : Response :=
  let p := reqSession (resolve st now cookie) freshId
  if requireAuthAllows p.2 then
    ⟨200, .obj [("success", .b true),
      ("user", .obj [("id", optStr p.2.userId), ("username", optStr p.2.username),
                     ("loginTime", .s nowIso)]),
      ("session", .obj [("id", .s p.1), ("authenticated", optBool p.2.isAuthenticated)])]⟩
  else denyResponse

/-- GET /api/secret-data (server.ts lines 312-324), behind requireAuth. -/
def secretDataRoute (st : Store) (now : Nat) (cookie : Option Cookie) (freshId : String)
    (nowIso : String) : Response :=
  let p := reqSession (resolve st now cookie) freshId
  if requireAuthAllows p.2 then
    ⟨200, .obj [("success", .b true),
      ("secretData", .s ("¡Datos súper secretos para " ++ interpStr p.2.username ++ "!")),
      ("timestamp", .s nowIso)]⟩
  else denyResponse

/-- GET /api/check-session (server.ts lines 341-354): no auth required,
reports `!!req.session.isAuthenticated`, `req.session.username || null`,
and `req.sessionID`.  A pure read: the store is unchanged
(`resave:false`, `saveUninitialized:false`). -/
def checkSessionRoute (st : Store) (now : Nat) (cookie : Option Cookie)
    (freshId : String) : Response :=
  let p := reqSession (resolve st now cookie) freshId
  ⟨200, .obj [("authenticated", .b (truthy p.2.isAuthenticated)),
              ("username", jsOrNull p.2.username),
              ("sessionId", .s p.1)]⟩

/-- The `200 {success:true, message}` body of a successful logout
(server.ts line 399). -/
def logoutOkBody : JVal :=
  .obj [("success", .b true), ("message", .s "Sesión cerrada exitosamente")]

/-- The `500 {success:false, message}` body when session destruction
reports an error (server.ts line 392). -/
def logoutFailBody : JVal :=
  .obj [("success", .b false), ("message", .s "Error al cerrar sesión")]

/-- POST /api/logout (server.ts lines 370-402).  `destroyErr` models the
`err` argument of `req.session.destroy`'s callback — an external store
fault (spec section 7, StoreUnavailable); deleting an absent key is NOT an
error (`storeDestroy` is total).  On error the handler answers 500 and
does not clear the cookie; on success it removes the store record, clears
the cookie, and answers 200. -/
def logoutRoute (st : Store) (now : Nat) (cookie : Option Cookie) (freshId : String)
    (destroyErr : Bool) : HandlerResult :=
  let sid := (reqSession (resolve st now cookie) freshId).1
  if destroyErr then
    { response := ⟨500, logoutFailBody⟩, store := st, cookie := .keep }
  else
    { response := ⟨200, logoutOkBody⟩, store := storeDestroy st sid, cookie := .clear }

/-- A store-mutating request, for the reachability relation: a login
attempt, a logout, or any of the read-only routes (profile, secret-data,
check-session), which never write the store. -/
inductive Op where
  | loginOp (cookie : Option Cookie) (freshId username password : String) (now : Nat)
  | logoutOp (cookie : Option Cookie) (freshId : String) (now : Nat) (destroyErr : Bool)
  | readOnly

/-- The store after one request is served. -/
def applyOp (st : Store) : Op → Store
  | .loginOp cookie fid un pw now => (loginHandler st now (resolve st now cookie) fid un pw).store
  | .logoutOp cookie fid now derr => (logoutRoute st now cookie fid derr).store
  | .readOnly => st

/-- Stores reachable from the initially empty store by serving requests. -/
inductive Reachable : Store → Prop where
  | init : Reachable []
  | step : ∀ {st : Store} (op : Op), Reachable st → Reachable (applyOp st op)

/-- An optional string field that is present and non-empty. -/
def NonEmptyOpt (o : Option String) : Prop := ∃ s, o = some s ∧ s ≠ ""

/-- The store invariant of spec section 3: an authenticated session always
carries a non-empty userId and username. -/
def StoreInv (st : Store) : Prop :=
  ∀ e ∈ st, e.data.isAuthenticated = some true →
    NonEmptyOpt e.data.userId ∧ NonEmptyOpt e.data.username

end SessionDemo

/-
The in-memory variant of the server (the unnamed source file with the
MemoryStore-backed express-session configuration).  Its route handlers are
embedded separately, translated from that file; its middleware resolution
is the same express-session mechanism, so `SessionDemo.resolve` and the
store model are shared (the claim under scrutiny compares the two servers
at the route level "for the same session state and the same request").
-/

namespace MemServer

open SessionDemo

/-- The in-memory variant's user list (part_003 lines 65-69). -/
def users : List User :=
  [⟨"1", "juan", "123456"⟩, ⟨"2", "maria", "password"⟩, ⟨"3", "admin", "admin123"⟩]

/-- The in-memory variant's POST /api/login handler (part_003 lines
97-135): identical credential check, session-field assignment, and
response bodies. -/
def loginHandler (st : Store) (now : Nat) (ctx : SessionContext) (freshId : String)
    (username password : String) : HandlerResult :=
  match MemServer.users.find? (fun u => u.username == username && u.password == password) with
  | some u =>
    let sid := (reqSession ctx freshId).1
    let d : SessionData := ⟨some u.id, some u.username, some true⟩
    { response := ⟨200, .obj [("success", .b true), ("message", .s "Login exitoso"),
        ("user", .obj [("id", .s u.id), ("username", .s u.username)])]⟩,
      store := storeSet st sid d (now + sessionTTL),
      cookie := .setCookie (issueCookie sid) }
  | none =>
    { response := ⟨401, .obj [("success", .b false),
        ("message", .s "Usuario o contraseña incorrectos")]⟩,
      store := st, cookie := .keep }

/-- The in-memory variant's requireAuth predicate (part_003 line 82). -/
def requireAuthAllows (d : SessionData) : Bool := truthy d.isAuthenticated

/-- The in-memory variant's requireAuth deny response (part_003 lines
87-90). -/
def denyResponse : Response :=
  ⟨401, .obj [("error", .s "No autorizado. Debes hacer login primero."),
              ("authenticated", .b false)]⟩

/-- The in-memory variant's GET /api/profile (part_003 lines 138-157). -/
def profileRoute (st : Store) (now : Nat) (cookie : Option Cookie) (freshId : String)
    (nowIso : String) : Response :=
  let p := reqSession (resolve st now cookie) freshId
  if MemServer.requireAuthAllows p.2 then
    ⟨200, .obj [("success", .b true),
      ("user", .obj [("id", optStr p.2.userId), ("username", optStr p.2.username),
                     ("loginTime", .s nowIso)]),
      ("session", .obj [("id", .s p.1), ("authenticated", optBool p.2.isAuthenticated)])]⟩
  else MemServer.denyResponse

/-- The in-memory variant's GET /api/secret-data (part_003 lines 160-172). -/
def secretDataRoute (st : Store) (now : Nat) (cookie : Option Cookie) (freshId : String)
    (nowIso : String) : Response :=
  let p := reqSession (resolve st now cookie) freshId
  if MemServer.requireAuthAllows p.2 then
    ⟨200, .obj [("success", .b true),
      ("secretData", .s ("¡Datos súper secretos para " ++ interpStr p.2.username ++ "!")),
      ("timestamp", .s nowIso)]⟩
  else MemServer.denyResponse

/-- The in-memory variant's GET /api/check-session (part_003 lines
175-188). -/
def checkSessionRoute (st : Store) (now : Nat) (cookie : Option Cookie)
    (freshId : String) : Response :=
  let p := reqSession (resolve st now cookie) freshId
  ⟨200, .obj [("authenticated", .b (truthy p.2.isAuthenticated)),
              ("username", jsOrNull p.2.username),
              ("sessionId", .s p.1)]⟩

/-- The in-memory variant's POST /api/logout (part_003 lines 191-213). -/
def logoutRoute (st : Store) (now : Nat) (cookie : Option Cookie) (freshId : String)
    (destroyErr : Bool) : HandlerResult :=
  let sid := (reqSession (resolve st now cookie) freshId).1
  if destroyErr then
    { response := ⟨500, .obj [("success", .b false),
        ("message", .s "Error al cerrar sesión")]⟩,
      store := st, cookie := .keep }
  else
    { response := ⟨200, .obj [("success", .b true),
        ("message", .s "Sesión cerrada exitosamente")]⟩,
      store := storeDestroy st sid, cookie := .clear }

end MemServer

/-
Theorems.  Helper lemmas come first; each claim's theorem carries a doc
comment naming the claim.
-/

namespace SessionDemo

/-- Truthiness of an optional boolean session field holds exactly for the
stored value `true`. -/
lemma truthy_eq_true_iff (b : Option Bool) : truthy b = true ↔ b = some true := by
  cases b with
  | none => simp [truthy]
  | some x => cases x <;> simp [truthy]

/-- The gate admits a request exactly when resolution produced a valid
context whose data is marked authenticated. -/
lemma gateAllows_iff (st : Store) (now : Nat) (cookie : Option Cookie) (fid : String) :
    gateAllows st now cookie fid = true ↔
      ∃ sid d, resolve st now cookie = .Valid sid d ∧ d.isAuthenticated = some true := by
  cases hres : resolve st now cookie with
  | Absent =>
    simp [gateAllows, hres, reqSession, requireAuthAllows, truthy, emptySession]
  | Valid sid d =>
    simp only [gateAllows, hres, reqSession, requireAuthAllows, truthy_eq_true_iff]
    constructor
    · intro h; exact ⟨sid, d, rfl, h⟩
    · rintro ⟨s', d', heq, h⟩
      cases heq
      exact h

/-- When the gate denies, GET /api/profile answers with the constant deny
response. -/
lemma profileRoute_deny (st : Store) (now : Nat) (cookie : Option Cookie) (fid iso : String)
    (h : gateAllows st now cookie fid = false) :
    profileRoute st now cookie fid iso = denyResponse := by
  simp only [gateAllows, requireAuthAllows] at h
  simp [profileRoute, requireAuthAllows, h]

/-- When the gate denies, GET /api/secret-data answers with the constant
deny response. -/
lemma secretDataRoute_deny (st : Store) (now : Nat) (cookie : Option Cookie) (fid iso : String)
    (h : gateAllows st now cookie fid = false) :
    secretDataRoute st now cookie fid iso = denyResponse := by
  simp only [gateAllows, requireAuthAllows] at h
  simp [secretDataRoute, requireAuthAllows, h]

/-- C2: the requireAuth gate admits a request if and only if the resolved
session context is valid with `isAuthenticated = true`; in every other
case both protected routes (GET /api/profile and GET /api/secret-data)
answer the constant 401 deny response and the protected handler's output
never appears, while an admitted request reaches the handler (status
200). -/
theorem requireAuth_gate (st : Store) (now : Nat) (cookie : Option Cookie)
    (fid nowIso : String) :
    (gateAllows st now cookie fid = true ↔
      ∃ sid d, resolve st now cookie = .Valid sid d ∧ d.isAuthenticated = some true) ∧
    (gateAllows st now cookie fid = false →
      profileRoute st now cookie fid nowIso = denyResponse ∧
      secretDataRoute st now cookie fid nowIso = denyResponse ∧
      denyResponse.status = 401) ∧
    (gateAllows st now cookie fid = true →
      (profileRoute st now cookie fid nowIso).status = 200 ∧
      (secretDataRoute st now cookie fid nowIso).status = 200) := by
  refine ⟨gateAllows_iff st now cookie fid, ?_, ?_⟩
  · intro h
    exact ⟨profileRoute_deny st now cookie fid nowIso h,
           secretDataRoute_deny st now cookie fid nowIso h, rfl⟩
  · intro h
    simp only [gateAllows, requireAuthAllows] at h
    constructor <;> simp [profileRoute, secretDataRoute, requireAuthAllows, h]

/-- C9: any two denied requests to the protected routes receive identical
responses (status 401 and the same body), regardless of whether the deny
cause was a missing session, an unauthenticated session, or an expired
one; the two protected routes even share the same deny response. -/
theorem deny_indistinguishable (st1 st2 : Store) (n1 n2 : Nat) (c1 c2 : Option Cookie)
    (f1 f2 iso1 iso2 : String)
    (h1 : gateAllows st1 n1 c1 f1 = false) (h2 : gateAllows st2 n2 c2 f2 = false) :
    profileRoute st1 n1 c1 f1 iso1 = profileRoute st2 n2 c2 f2 iso2 ∧
    secretDataRoute st1 n1 c1 f1 iso1 = secretDataRoute st2 n2 c2 f2 iso2 ∧
    profileRoute st1 n1 c1 f1 iso1 = secretDataRoute st1 n1 c1 f1 iso1 ∧
    (profileRoute st1 n1 c1 f1 iso1).status = 401 := by
  rw [profileRoute_deny st1 n1 c1 f1 iso1 h1, profileRoute_deny st2 n2 c2 f2 iso2 h2,
      secretDataRoute_deny st1 n1 c1 f1 iso1 h1, secretDataRoute_deny st2 n2 c2 f2 iso2 h2]
  exact ⟨rfl, rfl, rfl, rfl⟩

/-- C9 witness: a request with no cookie and a request whose session's
store TTL has elapsed are denied with identical responses. -/
theorem deny_indistinguishable_witness :
    (gateAllows [] 0 none "F" = false ∧
     gateAllows [⟨"S", ⟨some "1", some "juan", some true⟩, 5⟩] 10
       (some (issueCookie "S")) "G" = false) ∧
    (profileRoute [] 0 none "F" "t1" =
       profileRoute [⟨"S", ⟨some "1", some "juan", some true⟩, 5⟩] 10
         (some (issueCookie "S")) "G" "t2" ∧
     secretDataRoute [] 0 none "F" "t1" =
       secretDataRoute [⟨"S", ⟨some "1", some "juan", some true⟩, 5⟩] 10
         (some (issueCookie "S")) "G" "t2" ∧
     profileRoute [] 0 none "F" "t1" = secretDataRoute [] 0 none "F" "t1" ∧
     (profileRoute [] 0 none "F" "t1").status = 401) :=
  ⟨⟨by decide, by decide⟩,
   deny_indistinguishable [] [⟨"S", ⟨some "1", some "juan", some true⟩, 5⟩] 0 10
     none (some (issueCookie "S")) "F" "G" "t1" "t2" (by decide) (by decide)⟩

/-- A cookie issued for a session id verifies back to that id. -/
lemma verify_issue (sid : String) : verifyCookie (issueCookie sid) = some sid := by
  simp [verifyCookie, issueCookie]

/-- C8: replacing the signature portion of a valid cookie with any other
string makes verification fail, and resolution then behaves exactly as if
no cookie were presented: check-session answers 200 with
authenticated:false (no crash, no surfaced error) and protected routes
answer the constant 401 deny response; any cookie failing verification
resolves to Absent. -/
theorem tampered_cookie_absent (st : Store) (now : Nat) (c : Cookie) (sig2 fid iso : String)
    (hvalid : c.sig = hmac sessionSecret c.sid) (hne : sig2 ≠ c.sig) :
    verifyCookie ⟨c.sid, sig2⟩ = none ∧
    resolve st now (some ⟨c.sid, sig2⟩) = resolve st now none ∧
    checkSessionRoute st now (some ⟨c.sid, sig2⟩) fid = checkSessionRoute st now none fid ∧
    (checkSessionRoute st now (some ⟨c.sid, sig2⟩) fid).status = 200 ∧
    profileRoute st now (some ⟨c.sid, sig2⟩) fid iso = denyResponse ∧
    (∀ c' : Cookie, verifyCookie c' = none →
      resolve st now (some c') = SessionContext.Absent) := by
  have hm : (sig2 == hmac sessionSecret c.sid) = false := by
    rw [← hvalid]
    exact beq_eq_false_iff_ne.mpr hne
  have hver : verifyCookie ⟨c.sid, sig2⟩ = none := by
    simp [verifyCookie, hm]
  refine ⟨hver, ?_, ?_, rfl, ?_, ?_⟩
  · simp [resolve, hver]
  · simp [checkSessionRoute, resolve, hver]
  · have : gateAllows st now (some ⟨c.sid, sig2⟩) fid = false := by
      simp [gateAllows, resolve, hver, reqSession, requireAuthAllows, truthy, emptySession]
    exact profileRoute_deny st now _ fid iso this
  · intro c' h
    simp [resolve, h]

/-- C8 witness: tampering with the signature of the cookie issued for
session id S is treated exactly like presenting no cookie. -/
theorem tampered_cookie_absent_witness :
    ((issueCookie "S").sig = hmac sessionSecret (issueCookie "S").sid ∧
     "tampered" ≠ (issueCookie "S").sig) ∧
    (verifyCookie ⟨(issueCookie "S").sid, "tampered"⟩ = none ∧
     resolve [] 0 (some ⟨(issueCookie "S").sid, "tampered"⟩) = resolve [] 0 none ∧
     checkSessionRoute [] 0 (some ⟨(issueCookie "S").sid, "tampered"⟩) "F" =
       checkSessionRoute [] 0 none "F" ∧
     (checkSessionRoute [] 0 (some ⟨(issueCookie "S").sid, "tampered"⟩) "F").status = 200 ∧
     profileRoute [] 0 (some ⟨(issueCookie "S").sid, "tampered"⟩) "F" "t" = denyResponse ∧
     (∀ c' : Cookie, verifyCookie c' = none →
        resolve [] 0 (some c') = SessionContext.Absent)) :=
  ⟨⟨rfl, by decide⟩,
   tampered_cookie_absent [] 0 (issueCookie "S") "tampered" "F" "t" rfl (by decide)⟩

/-- C6: a login request whose credentials match no user in the directory
answers 401 with the single generic failure body, leaves the store
untouched and issues no cookie instruction, and a subsequent
check-session request carrying no cookie reports authenticated:false with
a null username. -/
theorem invalid_login_rejected (st : Store) (now now2 : Nat) (ctx : SessionContext)
    (fid fid2 un pw : String)
    (hno : ∀ u ∈ users, ¬(u.username = un ∧ u.password = pw)) :
    loginHandler st now ctx fid un pw =
      ⟨⟨401, loginFailBody⟩, st, .keep⟩ ∧
    checkSessionRoute (loginHandler st now ctx fid un pw).store now2 none fid2 =
      ⟨200, .obj [("authenticated", .b false), ("username", .null),
                  ("sessionId", .s fid2)]⟩ := by
  have hfind : users.find? (fun u => u.username == un && u.password == pw) = none := by
    rw [List.find?_eq_none]
    intro u hu
    simp only [Bool.and_eq_true, beq_iff_eq]
    exact fun h => hno u hu ⟨h.1, h.2⟩
  have h1 : loginHandler st now ctx fid un pw = ⟨⟨401, loginFailBody⟩, st, .keep⟩ := by
    simp [loginHandler, hfind]
  refine ⟨h1, ?_⟩
  rw [h1]
  simp [checkSessionRoute, resolve, reqSession, emptySession, truthy, jsOrNull]

/-- C6 witness: logging in as juan with a wrong password fails generically
and leaves no authenticated state behind. -/
theorem invalid_login_rejected_witness :
    (∀ u ∈ users, ¬(u.username = "juan" ∧ u.password = "wrong")) ∧
    (loginHandler [] 0 SessionContext.Absent "F" "juan" "wrong" =
       ⟨⟨401, loginFailBody⟩, [], .keep⟩ ∧
     checkSessionRoute (loginHandler [] 0 SessionContext.Absent "F" "juan" "wrong").store 0
         none "G" =
       ⟨200, .obj [("authenticated", .b false), ("username", .null),
                   ("sessionId", .s "G")]⟩) :=
  ⟨by decide,
   invalid_login_rejected [] 0 0 SessionContext.Absent "F" "G" "juan" "wrong" (by decide)⟩

/-- Destroying a key that is not in the store leaves the store unchanged. -/
lemma storeDestroy_absent (st : Store) (sid : String)
    (habs : st.find? (fun e => e.sid == sid) = none) :
    storeDestroy st sid = st := by
  rw [storeDestroy, List.filter_eq_self]
  intro e he
  have h := List.find?_eq_none.mp habs e he
  simp only [Bool.not_eq_true] at h
  simp [bne, h]

/-- C7: logout is idempotent — two consecutive logout requests (the second
arriving after the first destroyed the session) both answer 200 with the
success body, and destroying an already-absent session key is a success
that leaves the store unchanged rather than an error (both handlers are
total: nothing throws). -/
theorem logout_idempotent (st : Store) (n1 n2 : Nat) (c1 c2 : Option Cookie)
    (f1 f2 sid : String) (habs : st.find? (fun e => e.sid == sid) = none) :
    (logoutRoute st n1 c1 f1 false).response = ⟨200, logoutOkBody⟩ ∧
    (logoutRoute (logoutRoute st n1 c1 f1 false).store n2 c2 f2 false).response =
      ⟨200, logoutOkBody⟩ ∧
    storeDestroy st sid = st := by
  exact ⟨rfl, rfl, storeDestroy_absent st sid habs⟩

/-- C7 witness: double logout against the empty store (session id X was
never created) succeeds twice. -/
theorem logout_idempotent_witness :
    (([] : Store).find? (fun e => e.sid == "X") = none) ∧
    ((logoutRoute [] 0 none "F" false).response = ⟨200, logoutOkBody⟩ ∧
     (logoutRoute (logoutRoute [] 0 none "F" false).store 1 none "G" false).response =
       ⟨200, logoutOkBody⟩ ∧
     storeDestroy [] "X" = []) :=
  ⟨rfl, logout_idempotent [] 0 1 none none "F" "G" "X" rfl⟩

/-- After destroying a session id, loading it yields nothing. -/
lemma storeLoad_destroy_self (st : Store) (now : Nat) (sid : String) :
    storeLoad (storeDestroy st sid) now sid = none := by
  have h : (storeDestroy st sid).find? (fun e => e.sid == sid) = none := by
    rw [List.find?_eq_none]
    intro e he
    have hm := List.mem_filter.mp he
    simp only [bne_iff_ne, ne_eq] at hm
    simp [hm.2]
  simp [storeLoad, h]

/-- C5 counterexample: when session destruction reports an error, the
logout handler answers 500 without clearing the cookie and without
touching the store — it does not, as the claim states, still clear the
cookie and report success. -/
theorem logout_destroyfail_cex :
    (logoutRoute [⟨"S", ⟨some "1", some "juan", some true⟩, 100⟩] 0
       (some (issueCookie "S")) "F" true).cookie ≠ CookieAction.clear ∧
    (logoutRoute [⟨"S", ⟨some "1", some "juan", some true⟩, 100⟩] 0
       (some (issueCookie "S")) "F" true).response.status = 500 ∧
    (logoutRoute [⟨"S", ⟨some "1", some "juan", some true⟩, 100⟩] 0
       (some (issueCookie "S")) "F" true).store =
      [⟨"S", ⟨some "1", some "juan", some true⟩, 100⟩] := by
  exact ⟨by decide, rfl, rfl⟩

/-- C5 amended: the two cleanup steps are coupled, not independent — if
destruction fails the handler answers 500 {success:false}, keeps the
cookie and leaves the store unchanged; only when destruction succeeds does
it clear the cookie, remove the session record, and answer 200
{success:true}. -/
theorem logout_cleanup_amended (st : Store) (now : Nat) (cookie : Option Cookie)
    (fid : String) :
    ((logoutRoute st now cookie fid true).response.status = 500 ∧
     (logoutRoute st now cookie fid true).response.body = logoutFailBody ∧
     (logoutRoute st now cookie fid true).cookie = CookieAction.keep ∧
     (logoutRoute st now cookie fid true).store = st) ∧
    ((logoutRoute st now cookie fid false).response.status = 200 ∧
     (logoutRoute st now cookie fid false).response.body = logoutOkBody ∧
     (logoutRoute st now cookie fid false).cookie = CookieAction.clear ∧
     storeLoad (logoutRoute st now cookie fid false).store now
       (reqSession (resolve st now cookie) fid).1 = none) := by
  refine ⟨⟨rfl, rfl, rfl, rfl⟩, ⟨rfl, rfl, rfl, ?_⟩⟩
  exact storeLoad_destroy_self st now (reqSession (resolve st now cookie) fid).1

/-- C4 counterexample: a client presenting a valid cookie for the live
pre-existing session id S logs in successfully as maria, and the
authenticated session is bound to the presented id S (the cookie re-issued
for S and maria's data stored under S) instead of the fresh id F. -/
theorem login_reuses_presented_sid_cex :
    (loginHandler [⟨"S", ⟨some "1", some "juan", some true⟩, 100⟩] 0
      (resolve [⟨"S", ⟨some "1", some "juan", some true⟩, 100⟩] 0 (some (issueCookie "S")))
      "F" "maria" "password").cookie = CookieAction.setCookie (issueCookie "S") ∧
    storeLoad (loginHandler [⟨"S", ⟨some "1", some "juan", some true⟩, 100⟩] 0
      (resolve [⟨"S", ⟨some "1", some "juan", some true⟩, 100⟩] 0 (some (issueCookie "S")))
      "F" "maria" "password").store 1 "S" = some ⟨some "2", some "maria", some true⟩ ∧
    ("S" : String) ≠ "F" := by
  exact ⟨by decide, by decide, by decide⟩

/-- C4 amended: a successful login binds the authenticated session to the
id the middleware resolved for the request — the fresh id only when
resolution yielded Absent (no cookie, invalid cookie, or store miss); when
the request presented a valid cookie for a live session, that presented id
is reused rather than a fresh one being minted. -/
theorem login_sid_amended (st : Store) (now : Nat) (cookie : Option Cookie)
    (fid un pw : String) (u : User)
    (hfind : users.find? (fun v => v.username == un && v.password == pw) = some u) :
    (loginHandler st now (resolve st now cookie) fid un pw).cookie =
      CookieAction.setCookie (issueCookie (reqSession (resolve st now cookie) fid).1) ∧
    (resolve st now cookie = SessionContext.Absent →
      (reqSession (resolve st now cookie) fid).1 = fid) ∧
    (∀ sid d, resolve st now cookie = SessionContext.Valid sid d →
      (reqSession (resolve st now cookie) fid).1 = sid) := by
  refine ⟨by simp [loginHandler, hfind], ?_, ?_⟩
  · intro h; simp [reqSession, h]
  · intro sid d h; simp [reqSession, h]

/-- C4 witness: a cookieless login as juan binds the session to the fresh
id. -/
theorem login_sid_amended_witness :
    users.find? (fun v => v.username == "juan" && v.password == "123456")
      = some ⟨"1", "juan", "123456"⟩ ∧
    ((loginHandler [] 0 (resolve [] 0 none) "F" "juan" "123456").cookie =
       CookieAction.setCookie (issueCookie (reqSession (resolve [] 0 none) "F").1) ∧
     (resolve [] 0 none = SessionContext.Absent →
       (reqSession (resolve [] 0 none) "F").1 = "F") ∧
     (∀ sid d, resolve [] 0 none = SessionContext.Valid sid d →
       (reqSession (resolve [] 0 none) "F").1 = sid)) :=
  ⟨by decide,
   login_sid_amended [] 0 none "F" "juan" "123456" ⟨"1", "juan", "123456"⟩ (by decide)⟩

/-- Loading the id just written by a store write, before its expiry,
returns the written data. -/
lemma storeLoad_set_self (st : Store) (sid : String) (d : SessionData) (now exp : Nat)
    (h : now < exp) : storeLoad (storeSet st sid d exp) now sid = some d := by
  have hp : ((fun e : StoreEntry => e.sid == sid) ⟨sid, d, exp⟩) = true := by simp
  simp [storeLoad, storeSet, List.find?_cons_of_pos _ hp, h]

/-- A check-session request whose cookie resolves to stored data reports
that data's authentication flag and username. -/
lemma checkSession_of_load (st : Store) (now : Nat) (sid : String) (d : SessionData)
    (fid : String) (hload : storeLoad st now sid = some d) :
    checkSessionRoute st now (some (issueCookie sid)) fid =
      ⟨200, .obj [("authenticated", .b (truthy d.isAuthenticated)),
                  ("username", jsOrNull d.username), ("sessionId", .s sid)]⟩ := by
  simp [checkSessionRoute, resolve, verify_issue, hload, reqSession]

/-- C1: for every record of the user directory, logging in with its
username and password answers 200 with {success:true, user:{id,username}}
from that record, sets the signed session cookie, stores the session as
authenticated with that userId and username, and a later check-session
request presenting the issued cookie (before the TTL elapses) reports
authenticated:true with the same username. -/
theorem login_then_check_session (u : User) (hu : u ∈ users) (st : Store)
    (cookie0 : Option Cookie) (fid fid2 : String) (now now2 : Nat)
    (hts : now2 < now + sessionTTL) :
    (loginHandler st now (resolve st now cookie0) fid u.username u.password).response.status
      = 200 ∧
    (loginHandler st now (resolve st now cookie0) fid u.username u.password).response.body
      = loginOkBody u ∧
    (loginHandler st now (resolve st now cookie0) fid u.username u.password).cookie
      = CookieAction.setCookie
          (issueCookie (reqSession (resolve st now cookie0) fid).1) ∧
    storeLoad (loginHandler st now (resolve st now cookie0) fid u.username u.password).store
        now2 (reqSession (resolve st now cookie0) fid).1
      = some ⟨some u.id, some u.username, some true⟩ ∧
    checkSessionRoute
        (loginHandler st now (resolve st now cookie0) fid u.username u.password).store
        now2 (some (issueCookie (reqSession (resolve st now cookie0) fid).1)) fid2
      = ⟨200, .obj [("authenticated", .b true), ("username", .s u.username),
                    ("sessionId", .s (reqSession (resolve st now cookie0) fid).1)]⟩ := by
  have hu3 : u = ⟨"1", "juan", "123456"⟩ ∨ u = ⟨"2", "maria", "password"⟩ ∨
      u = ⟨"3", "admin", "admin123"⟩ := by simpa [users] using hu
  have hfind : users.find?
      (fun v => v.username == u.username && v.password == u.password) = some u := by
    rcases hu3 with rfl | rfl | rfl <;> decide
  have hne : (u.username == "") = false := by
    rcases hu3 with rfl | rfl | rfl <;> decide
  have hload : storeLoad
      (loginHandler st now (resolve st now cookie0) fid u.username u.password).store
      now2 (reqSession (resolve st now cookie0) fid).1
      = some ⟨some u.id, some u.username, some true⟩ := by
    simp only [loginHandler, hfind]
    exact storeLoad_set_self _ _ _ _ _ hts
  refine ⟨by simp [loginHandler, hfind], by simp [loginHandler, hfind],
          by simp [loginHandler, hfind], hload, ?_⟩
  rw [checkSession_of_load _ _ _ _ _ hload]
  simp [truthy, jsOrNull, hne]

/-- C1 witness: juan logs in on an empty store with no prior cookie; the
issued cookie then checks back as authenticated juan. -/
theorem login_then_check_session_witness :
    ((⟨"1", "juan", "123456"⟩ : User) ∈ users ∧ 1 < 0 + sessionTTL) ∧
    ((loginHandler [] 0 (resolve [] 0 none) "F" "juan" "123456").response.status = 200 ∧
     (loginHandler [] 0 (resolve [] 0 none) "F" "juan" "123456").response.body
       = loginOkBody ⟨"1", "juan", "123456"⟩ ∧
     (loginHandler [] 0 (resolve [] 0 none) "F" "juan" "123456").cookie
       = CookieAction.setCookie (issueCookie (reqSession (resolve [] 0 none) "F").1) ∧
     storeLoad (loginHandler [] 0 (resolve [] 0 none) "F" "juan" "123456").store 1
         (reqSession (resolve [] 0 none) "F").1
       = some ⟨some "1", some "juan", some true⟩ ∧
     checkSessionRoute (loginHandler [] 0 (resolve [] 0 none) "F" "juan" "123456").store 1
         (some (issueCookie (reqSession (resolve [] 0 none) "F").1)) "G"
       = ⟨200, .obj [("authenticated", .b true), ("username", .s "juan"),
                     ("sessionId", .s (reqSession (resolve [] 0 none) "F").1)]⟩) :=
  ⟨⟨by decide, by decide⟩,
   login_then_check_session ⟨"1", "juan", "123456"⟩ (by decide) [] none "F" "G" 0 1
     (by decide)⟩

/-- Every user of the fixed directory has a non-empty id and username. -/
lemma users_wellformed : ∀ u ∈ users, u.id ≠ "" ∧ u.username ≠ "" := by decide

/-- Serving one request preserves the store invariant: login is the only
writer of isAuthenticated and always sets all three fields from a
directory entry; logout only removes entries; reads write nothing. -/
lemma storeInv_step (st : Store) (op : Op) (h : StoreInv st) : StoreInv (applyOp st op) := by
  cases op with
  | readOnly => exact h
  | logoutOp cookie fid nw derr =>
    cases derr with
    | true => exact h
    | false =>
      intro e he hauth
      exact h e (List.mem_of_mem_filter he) hauth
  | loginOp cookie fid un pw nw =>
    cases hfind : users.find? (fun u => u.username == un && u.password == pw) with
    | none =>
      intro e he hauth
      simp only [applyOp, loginHandler, hfind] at he
      exact h e he hauth
    | some u =>
      have hu := List.mem_of_find?_eq_some hfind
      have hw := users_wellformed u hu
      intro e he hauth
      simp only [applyOp, loginHandler, hfind, storeSet, List.mem_cons] at he
      rcases he with rfl | he
      · exact ⟨⟨u.id, rfl, hw.1⟩, ⟨u.username, rfl, hw.2⟩⟩
      · exact h e (List.mem_of_mem_filter he) hauth

/-- C3: in every store state reachable from the empty store by serving
requests, any stored session marked isAuthenticated = true carries a
non-empty userId and a non-empty username; every operation (login, logout,
and the read-only routes) preserves this invariant. -/
theorem reachable_store_invariant : ∀ st : Store, Reachable st → StoreInv st := by
  intro st h
  induction h with
  | init => intro e he; cases he
  | step op _ ih => exact storeInv_step _ op ih

/-- C3 witness: the store reached by one successful cookieless login
satisfies the invariant. -/
theorem reachable_store_invariant_witness :
    StoreInv (applyOp [] (Op.loginOp none "F" "juan" "123456" 0)) :=
  reachable_store_invariant _ (Reachable.step _ Reachable.init)

end SessionDemo

/-- C10: the Redis-backed server and the in-memory variant are
behaviorally equivalent at the route level — given the same session state
and the same request, their login, profile, secret-data, check-session,
and logout handlers produce the same responses, session mutations, and
cookie instructions, and their auth gates agree. -/
theorem servers_equivalent :
    (∀ st now ctx fid un pw, MemServer.loginHandler st now ctx fid un pw =
        SessionDemo.loginHandler st now ctx fid un pw) ∧
    (∀ d, MemServer.requireAuthAllows d = SessionDemo.requireAuthAllows d) ∧
    MemServer.denyResponse = SessionDemo.denyResponse ∧
    (∀ st now cookie fid iso, MemServer.profileRoute st now cookie fid iso =
        SessionDemo.profileRoute st now cookie fid iso) ∧
    (∀ st now cookie fid iso, MemServer.secretDataRoute st now cookie fid iso =
        SessionDemo.secretDataRoute st now cookie fid iso) ∧
    (∀ st now cookie fid, MemServer.checkSessionRoute st now cookie fid =
        SessionDemo.checkSessionRoute st now cookie fid) ∧
    (∀ st now cookie fid derr, MemServer.logoutRoute st now cookie fid derr =
        SessionDemo.logoutRoute st now cookie fid derr) := by
  exact ⟨fun _ _ _ _ _ _ => rfl, fun _ => rfl, rfl, fun _ _ _ _ _ => rfl,
         fun _ _ _ _ _ => rfl, fun _ _ _ _ => rfl, fun _ _ _ _ _ => rfl⟩
